import Mathlib

/-!
Verification development for the wayland protocol runtime
(src/src/wayland-client.c and src/wayland/wayland-server.c).

The client-side object map and the wire connection layer
(wayland-util.c / connection.c) are not part of the sources under
review; their operations are modelled from the specification where a
claim depends on them, and each such definition is marked
`Modelled from the spec:` in its doc comment.  All other definitions
are direct shallow embeddings of the C functions they are named after.
-/

/-- Linux errno value EINVAL, as set by wl_display_iterate. -/
def EINVAL : Nat := 22

/-- Linux errno value EPROTO, as set by wl_display_iterate on a fatal display. -/
def EPROTO : Nat := 71

/-- WL_SERVER_ID_START: first server-allocated object id (0xff000000). -/
def WL_SERVER_ID_START : Nat := 0xff000000

/-- A slot of the client object map holds either the ZOMBIE sentinel
(WL_ZOMBIE_OBJECT) or a proxy; for a proxy we track only whether its
implementation (listener vtable) is non-null, which is all
handle_event inspects. -/
inductive MapEntry where
  | zombie
  | obj (hasImpl : Bool)
deriving DecidableEq

/-- The client object map: id to occupied slot (none = empty slot / NULL). -/
def ObjectMap : Type := Nat → Option MapEntry

/-- Modelled from the spec: wl_map_lookup (wayland-util.c, not under src/)
returns the value stored at the id, or NULL. -/
def wl_map_lookup (m : ObjectMap) (id : Nat) : Option MapEntry :=
  m id

/-- Modelled from the spec: wl_map_insert_at (wayland-util.c, not under src/)
stores a value at a given id.  Per the lifecycle summary of the spec
(destroyed proxies transition their slot to ZOMBIE / cleared), the store
replaces the slot content; the int result is 0 on success. -/
def wl_map_insert_at (m : ObjectMap) (id : Nat) (v : Option MapEntry) :
    ObjectMap × Int :=
  (fun j => if j = id then v else m j, 0)

/-- Modelled from the spec: wl_map_remove (wayland-util.c, not under src/)
frees the slot at the id. -/
def wl_map_remove (m : ObjectMap) (id : Nat) : ObjectMap :=
  fun j => if j = id then none else m j

/-- wl_proxy_destroy (wayland-client.c:170-186): client-allocated ids
(below WL_SERVER_ID_START) are replaced by the ZOMBIE sentinel,
server-allocated ids are cleared to NULL; returns the insert result. -/
def wl_proxy_destroy (m : ObjectMap) (id : Nat) : ObjectMap × Int :=
  if id < WL_SERVER_ID_START then
    wl_map_insert_at m id (some MapEntry.zombie)
  else
    wl_map_insert_at m id none

/-- The message logged by display_handle_delete_id when the slot does not
hold the ZOMBIE sentinel. -/
def delete_id_live_msg : String := "server sent delete_id for live object"

/-- display_handle_delete_id (wayland-client.c:298-308): look the id up;
if the slot is not ZOMBIE, log and leave the map unchanged; otherwise
remove the slot.  The second component is the logged message, if any. -/
def display_handle_delete_id (m : ObjectMap) (id : Nat) :
    ObjectMap × Option String :=
  if wl_map_lookup m id ≠ some MapEntry.zombie then
    (m, some delete_id_live_msg)
  else
    (wl_map_remove m id, none)

/-- Client display state for wl_display_iterate: the fatal flag, the
current readiness mask (display->mask), a transport-error flag standing
for a fatal result of wl_connection_data, the object map and the
connection in-ring modelled as a list of 32-bit words (frames are
4-byte aligned). -/
structure ClientState where
  fatal_error : Bool
  dmask : Nat
  ioError : Bool
  objects : ObjectMap
  conn : List Nat

/-- display_handle_error (wayland-client.c:247-256): logs and marks the
display fatal. -/
def display_handle_error (st : ClientState) (_code : Nat) (_message : String) :
    ClientState :=
  { st with fatal_error := true }

/-- handle_event (wayland-client.c:540-577): look up the target id; a
ZOMBIE slot, an empty slot or a proxy without implementation makes the
frame be consumed with nothing dispatched; otherwise the frame is
demarshalled (modelled from the spec: decode consumes the body),
dispatched and the closure destroyed.  Result: new state, return value,
dispatched (id, opcode) invocations. -/
def handle_event (st : ClientState) (id opcode size : Nat) :
    ClientState × Int × List (Nat × Nat) :=
  match wl_map_lookup st.objects id with
  | some MapEntry.zombie =>
      ({ st with conn := st.conn.drop (size / 4) }, 0, [])
  | none =>
      ({ st with conn := st.conn.drop (size / 4) }, 0, [])
  | some (MapEntry.obj false) =>
      ({ st with conn := st.conn.drop (size / 4) }, 0, [])
  | some (MapEntry.obj true) =>
      ({ st with conn := st.conn.drop (size / 4) }, 0, [(id, opcode)])

/-- Modelled from the spec: wl_connection_data (connection.c, not under
src/) performs the non-blocking I/O for the readiness mask and returns
the number of bytes buffered in the in-ring (≥ 0), or negative on a
fatal transport error. -/
def wl_connection_data (st : ClientState) (_mask : Nat) : Int :=
  if st.ioError then -1 else 4 * st.conn.length

/-- The frame loop of wl_display_iterate (wayland-client.c:607-625):
while bytes remain, peek the 8-byte header, break on an incomplete
header or frame, handle the frame, and on a non-zero handler result
return it; otherwise subtract the frame size from len.  `fuel` bounds
the iteration count for totality; every reachable run in this
development stays within it. -/
def iterate_loop : Nat → ClientState → Int → List (Nat × Nat) →
    Int × ClientState × List (Nat × Nat)
  | 0, st, len, acc => (len, st, acc)
  | Nat.succ fuel, st, len, acc =>
    if len > 0 then
      if len < 8 then (len, st, acc)
      else
        match st.conn with
        | w0 :: w1 :: _ =>
          let object := w0
          let opcode := w1 % 65536
          let size := w1 / 65536
          if len < (size : Int) then (len, st, acc)
          else
            let r := handle_event st object opcode size
            if r.2.1 ≠ 0 then (r.2.1, r.1, acc ++ r.2.2)
            else iterate_loop fuel r.1 (len - (size : Int)) (acc ++ r.2.2)
        | _ => (len, st, acc)
    else (len, st, acc)

/-- Result of wl_display_iterate: return value, errno when the function
set it, the resulting state, and the handler invocations dispatched. -/
structure IterateResult where
  ret : Int
  errno : Option Nat
  st : ClientState
  dispatched : List (Nat × Nat)

/-- wl_display_iterate (wayland-client.c:579-628): a fatal display
returns -1 with errno EPROTO; a mask sharing no bits with
display->mask returns -1 with errno EINVAL; a negative
wl_connection_data result is returned as is; otherwise the frame loop
runs and the remaining byte count is returned. -/
def wl_display_iterate (st : ClientState) (mask : Nat) : IterateResult :=
  if st.fatal_error then
    { ret := -1, errno := some EPROTO, st := st, dispatched := [] }
  else
    if mask &&& st.dmask = 0 then
      { ret := -1, errno := some EINVAL, st := st, dispatched := [] }
    else
      let len := wl_connection_data st (mask &&& st.dmask)
      if len < 0 then
        { ret := len, errno := none, st := st, dispatched := [] }
      else
        let r := iterate_loop (st.conn.length + 1) st len []
        { ret := r.1, errno := none, st := r.2.1, dispatched := r.2.2 }

/-- The inner loop of wl_display_roundtrip (wayland-client.c:499-501):
`while (not done and ret == 0) ret = wl_display_iterate(...)`.  Each
stream element is the return value of one wl_display_iterate call
paired with whether the sync callback fired during that call (the
callback sets `done`).  Result: the returned value and the final
`done` flag. -/
def wl_display_roundtrip_loop : Bool → Int → List (Int × Bool) → Int × Bool
  | done, ret, [] => (ret, done)
  | done, ret, (r, f) :: rest =>
    if done = false ∧ ret = 0 then
      wl_display_roundtrip_loop (done || f) r rest
    else
      (ret, done)

/-- A display state that has received an error event. -/
def fatalState : ClientState :=
  { fatal_error := true, dmask := 1, ioError := false,
    objects := fun _ => none, conn := [] }

/-- A healthy display state whose readiness mask is WL_DISPLAY_READABLE. -/
def readyState : ClientState :=
  { fatal_error := false, dmask := 1, ioError := false,
    objects := fun _ => none, conn := [] }

/-- A state whose object map holds a ZOMBIE at id 3 and two buffered words. -/
def zombieState : ClientState :=
  { fatal_error := false, dmask := 1, ioError := false,
    objects := fun j => if j = 3 then some MapEntry.zombie else none,
    conn := [3, 8 * 65536] }

/-- An object map with a live proxy at id 5. -/
def liveMap : ObjectMap :=
  fun j => if j = 5 then some (MapEntry.obj true) else none

/-- C1: once an error event has marked the display fatal
(display_handle_error sets fatal_error), every wl_display_iterate call
on a fatal display returns -1 with errno EPROTO, dispatches no events,
and leaves the state (hence the fatal flag) unchanged, so every
subsequent call behaves the same. -/
theorem c1_error_fatal_iterate_eproto (st0 st : ClientState) (code : Nat)
    (message : String) (mask : Nat) (h : st.fatal_error = true) :
    (display_handle_error st0 code message).fatal_error = true ∧
    (wl_display_iterate st mask).ret = -1 ∧
    (wl_display_iterate st mask).errno = some EPROTO ∧
    (wl_display_iterate st mask).dispatched = [] ∧
    (wl_display_iterate st mask).st = st := by
  refine ⟨rfl, ?_, ?_, ?_, ?_⟩ <;> simp [wl_display_iterate, h]

/-- C1 witness: the fatal state behaves as stated at mask 1. -/
theorem c1_witness :
    (display_handle_error readyState 7 delete_id_live_msg).fatal_error = true ∧
    (wl_display_iterate fatalState 1).ret = -1 ∧
    (wl_display_iterate fatalState 1).errno = some EPROTO ∧
    (wl_display_iterate fatalState 1).dispatched = [] ∧
    (wl_display_iterate fatalState 1).st = fatalState :=
  c1_error_fatal_iterate_eproto readyState fatalState 7 delete_id_live_msg 1 rfl

/-- C10: wl_display_iterate on a non-fatal display with a mask sharing
no bits with display->mask returns -1 with errno EINVAL, performs no
I/O and consumes nothing: the state is returned unchanged and nothing
is dispatched. -/
theorem c10_unsolicited_mask_einval (st : ClientState) (mask : Nat)
    (hf : st.fatal_error = false) (hm : mask &&& st.dmask = 0) :
    (wl_display_iterate st mask).ret = -1 ∧
    (wl_display_iterate st mask).errno = some EINVAL ∧
    (wl_display_iterate st mask).st = st ∧
    (wl_display_iterate st mask).dispatched = [] := by
  refine ⟨?_, ?_, ?_, ?_⟩ <;> simp [wl_display_iterate, hf, hm]

/-- C10 witness: a ready display (mask 1) called with mask 2. -/
theorem c10_witness :
    (wl_display_iterate readyState 2).ret = -1 ∧
    (wl_display_iterate readyState 2).errno = some EINVAL ∧
    (wl_display_iterate readyState 2).st = readyState ∧
    (wl_display_iterate readyState 2).dispatched = [] :=
  c10_unsolicited_mask_einval readyState 2 rfl rfl

/-- C4: wl_proxy_destroy stores the ZOMBIE sentinel in the proxy's slot
when its id is client-allocated (below WL_SERVER_ID_START), clears the
slot to NULL when server-allocated, changes no other slot, and returns
0. -/
theorem c4_proxy_destroy_zombie_or_clear (m : ObjectMap) (id : Nat) :
    (id < WL_SERVER_ID_START →
      (wl_proxy_destroy m id).1 id = some MapEntry.zombie) ∧
    (WL_SERVER_ID_START ≤ id → (wl_proxy_destroy m id).1 id = none) ∧
    (∀ j, j ≠ id → (wl_proxy_destroy m id).1 j = m j) ∧
    (wl_proxy_destroy m id).2 = 0 := by
  refine ⟨fun h => ?_, fun h => ?_, fun j hj => ?_, ?_⟩
  · simp [wl_proxy_destroy, wl_map_insert_at, h]
  · simp [wl_proxy_destroy, wl_map_insert_at, Nat.not_lt.mpr h]
  · by_cases h : id < WL_SERVER_ID_START <;>
      simp [wl_proxy_destroy, wl_map_insert_at, h, hj]
  · by_cases h : id < WL_SERVER_ID_START <;>
      simp [wl_proxy_destroy, wl_map_insert_at, h]

/-- C4 witness: destroying the live proxy at client id 5 leaves a
ZOMBIE, destroying server id 0xff000001 clears the slot, and slot 7 is
untouched. -/
theorem c4_witness :
    (5 < WL_SERVER_ID_START ∧
      (wl_proxy_destroy liveMap 5).1 5 = some MapEntry.zombie) ∧
    (WL_SERVER_ID_START ≤ 0xff000001 ∧
      (wl_proxy_destroy liveMap 0xff000001).1 0xff000001 = none) ∧
    (wl_proxy_destroy liveMap 5).1 7 = liveMap 7 ∧
    (wl_proxy_destroy liveMap 5).2 = 0 :=
  ⟨⟨by decide, (c4_proxy_destroy_zombie_or_clear liveMap 5).1 (by decide)⟩,
   ⟨by decide,
    (c4_proxy_destroy_zombie_or_clear liveMap 0xff000001).2.1 (by decide)⟩,
   (c4_proxy_destroy_zombie_or_clear liveMap 5).2.2.1 7 (by decide),
   (c4_proxy_destroy_zombie_or_clear liveMap 5).2.2.2⟩

/-- C5: display_handle_delete_id frees the slot exactly when it holds
the ZOMBIE sentinel (then nothing is logged and no other slot
changes); when the slot holds anything else, in particular a live
object, the live-object message is logged and the map is returned
unchanged. -/
theorem c5_delete_id_frees_iff_zombie (m : ObjectMap) (id : Nat) :
    (m id = some MapEntry.zombie →
      (display_handle_delete_id m id).1 id = none ∧
      (∀ j, j ≠ id → (display_handle_delete_id m id).1 j = m j) ∧
      (display_handle_delete_id m id).2 = none) ∧
    (m id ≠ some MapEntry.zombie →
      (display_handle_delete_id m id).1 = m ∧
      (display_handle_delete_id m id).2 = some delete_id_live_msg) := by
  constructor
  · intro h
    refine ⟨?_, fun j hj => ?_, ?_⟩
    · simp [display_handle_delete_id, wl_map_lookup, wl_map_remove, h]
    · simp [display_handle_delete_id, wl_map_lookup, wl_map_remove, h, hj]
    · simp [display_handle_delete_id, wl_map_lookup, h]
  · intro h
    constructor <;> simp [display_handle_delete_id, wl_map_lookup, h]

/-- C5 witness: delete_id on a ZOMBIE slot frees it silently; delete_id
on the live object at id 5 logs the live-object message and leaves the
map unchanged. -/
theorem c5_witness :
    (zombieState.objects 3 = some MapEntry.zombie ∧
      (display_handle_delete_id zombieState.objects 3).1 3 = none ∧
      (display_handle_delete_id zombieState.objects 3).2 = none) ∧
    (liveMap 5 ≠ some MapEntry.zombie ∧
      (display_handle_delete_id liveMap 5).1 = liveMap ∧
      (display_handle_delete_id liveMap 5).2 = some delete_id_live_msg) :=
  ⟨⟨by decide,
    ((c5_delete_id_frees_iff_zombie zombieState.objects 3).1 (by decide)).1,
    ((c5_delete_id_frees_iff_zombie zombieState.objects 3).1 (by decide)).2.2⟩,
   ⟨by decide,
    ((c5_delete_id_frees_iff_zombie liveMap 5).2 (by decide)).1,
    ((c5_delete_id_frees_iff_zombie liveMap 5).2 (by decide)).2⟩⟩

/-- C6: after wl_proxy_destroy the destroyed id's slot holds ZOMBIE or
is empty; and handle_event on any id whose slot is ZOMBIE or empty
consumes the frame from the wire (size bytes, i.e. size/4 words),
returns 0, dispatches nothing and leaves the object map untouched —
so no handler ever fires for a destroyed id until delete_id clears the
slot. -/
theorem c6_destroyed_id_drained_undispatched (m : ObjectMap)
    (st : ClientState) (id opcode size : Nat)
    (h : st.objects id = some MapEntry.zombie ∨ st.objects id = none) :
    ((wl_proxy_destroy m id).1 id = some MapEntry.zombie ∨
      (wl_proxy_destroy m id).1 id = none) ∧
    (handle_event st id opcode size).1.conn = st.conn.drop (size / 4) ∧
    (handle_event st id opcode size).2.1 = 0 ∧
    (handle_event st id opcode size).2.2 = [] ∧
    (handle_event st id opcode size).1.objects = st.objects := by
  constructor
  · by_cases hlt : id < WL_SERVER_ID_START
    · exact Or.inl ((c4_proxy_destroy_zombie_or_clear m id).1 hlt)
    · exact Or.inr
        ((c4_proxy_destroy_zombie_or_clear m id).2.1 (Nat.not_lt.mp hlt))
  · rcases h with h | h <;>
      refine ⟨?_, ?_, ?_, ?_⟩ <;>
        simp [handle_event, wl_map_lookup, h]

/-- C6 witness: in zombieState (ZOMBIE at id 3, one 8-byte frame
buffered), handle_event for id 3 consumes the frame, returns 0 and
dispatches nothing; and destroying id 3 in liveMap yields a ZOMBIE or
empty slot. -/
theorem c6_witness :
    ((wl_proxy_destroy liveMap 3).1 3 = some MapEntry.zombie ∨
      (wl_proxy_destroy liveMap 3).1 3 = none) ∧
    (handle_event zombieState 3 0 8).1.conn = zombieState.conn.drop 2 ∧
    (handle_event zombieState 3 0 8).2.1 = 0 ∧
    (handle_event zombieState 3 0 8).2.2 = [] ∧
    (handle_event zombieState 3 0 8).1.objects = zombieState.objects :=
  c6_destroyed_id_drained_undispatched liveMap zombieState 3 0 8
    (Or.inl (by decide))

/-- C3: the roundtrip loop terminates on any non-zero return of
wl_display_iterate.  Evaluated at the failing input where the first
iterate call returns 4 (an incomplete frame remains buffered) without
firing the sync callback, the loop exits returning 4 with the callback
never fired, although the next iterate call would have returned 0 and
fired it — contradicting the claim that a positive return does not
terminate the loop before the callback has fired. -/
theorem c3_roundtrip_loop_stops_on_positive :
    wl_display_roundtrip_loop false 0 [(4, false), (0, true)] = (4, false) := by
  decide

/-- Server events observable by a client, as posted by
wl_client_post_event on the display object. -/
inductive SrvEvent where
  | invalidObject (id : Nat)
  | invalidMethod (id opcode : Nat)
  | noMemory
  | handlerRun (id opcode : Nat)
  | range (base : Nat)
  | key (client k time : Nat)
deriving DecidableEq

/-- wl_display_add_global (wayland-server.c:581-601): the guard
`display == NULL or object == NULL or func != NULL` rejects with -1
(the display is represented by its global list, hence non-null by
construction); otherwise a global holding the object and func is
appended to the tail of the global list and 0 is returned.  An entry is
(object id, per-client connect notifier). -/
def wl_display_add_global (globals : List (Nat × Option Unit))
    (object : Option Nat) (func : Option Unit) :
    List (Nat × Option Unit) × Int :=
  if object = none ∨ func ≠ none then
    (globals, -1)
  else
    match object with
    | some o => (globals ++ [(o, func)], 0)
    | none => (globals, -1)

/-- C2: for a non-null object (and the display represented by its
global list), wl_display_add_global with a null func does not reject:
it appends an entry for the object, with no notifier, to the global
list and returns 0. -/
theorem c2_add_global_null_func_accepted (globals : List (Nat × Option Unit))
    (object : Option Nat) (o : Nat) (h : object = some o) :
    (wl_display_add_global globals object none).1 = globals ++ [(o, none)] ∧
    (wl_display_add_global globals object none).2 = 0 := by
  subst h
  constructor <;> simp [wl_display_add_global]

/-- C2 witness: adding object 1 with a null func to the empty global
list (as wl_display_create does) appends it and returns 0. -/
theorem c2_witness :
    (wl_display_add_global [] (some 1) none).1 = [] ++ [(1, none)] ∧
    (wl_display_add_global [] (some 1) none).2 = 0 :=
  c2_add_global_null_func_accepted [] (some 1) 1 rfl

/-- The id-grant bookkeeping shared by wl_display_post_range and
wl_client_add_resource: the display's client_id_range counter and the
client's id_count, both 32-bit unsigned. -/
structure GrantState where
  client_id_range : Nat
  id_count : Nat
deriving DecidableEq

/-- wl_display_post_range (wayland-server.c:212-219): post a range
event carrying the current client_id_range, then add 256 to both the
display's client_id_range and the client's id_count. -/
def wl_display_post_range (st : GrantState) : GrantState × List SrvEvent :=
  ({ client_id_range := (st.client_id_range + 256) % 4294967296,
     id_count := (st.id_count + 256) % 4294967296 },
   [SrvEvent.range st.client_id_range])

/-- The id-count logic of wl_client_add_resource
(wayland-server.c:257-276): post-decrement the client's id_count
(32-bit wrap-around) and, when the pre-decrement value was below 64,
post another range; the insertion of the resource into the object
table and the client's resource list does not touch the counters and
is modelled by the frame-list development below. -/
def wl_client_add_resource (st : GrantState) : GrantState × List SrvEvent :=
  let old := st.id_count
  let st1 : GrantState :=
    { st with id_count := if old = 0 then 4294967295 else old - 1 }
  if old < 64 then wl_display_post_range st1 else (st1, [])

/-- The grant portion of wl_client_create (wayland-server.c:221-255): a
zeroed client is granted its first range via wl_display_post_range.
`range0` is the display's client_id_range at creation (256 for a fresh
display, per wl_display_create line 532). -/
def wl_client_create_grant (range0 : Nat) : GrantState × List SrvEvent :=
  wl_display_post_range { client_id_range := range0, id_count := 0 }

/-- n successive wl_client_add_resource calls, collecting the posted
events in order. -/
def addResources : GrantState → Nat → GrantState × List SrvEvent
  | st, 0 => (st, [])
  | st, Nat.succ n =>
    let r := wl_client_add_resource st
    let r2 := addResources r.1 n
    (r2.1, r.2 ++ r2.2)

/-- The grant state of a client freshly created on a fresh display:
after the initial range(256) grant, client_id_range is 512 and
id_count is 256. -/
def freshClientGrant : GrantState := (wl_client_create_grant 256).1

set_option maxRecDepth 4000 in
/-- C8 counterexample: on a fresh client the first 192
wl_client_add_resource calls post no range event at all — in
particular no range(512) is emitted at resource 192 as the claim
states. -/
theorem c8_counterexample_no_range_at_192 :
    (addResources freshClientGrant 192).2 = [] := by
  decide

set_option maxRecDepth 4000 in
/-- C8 amended: a fresh client is first granted range(256); each
wl_client_add_resource post-decrements the granted-id counter and
posts a new range when the pre-decrement value is below 64, so the
crossing happens on the 194th resource (pre-decrement counter 63), and
the event then posted is range(512), 256 above the previous grant. -/
theorem c8_range_crossing_at_194 :
    (wl_client_create_grant 256).2 = [SrvEvent.range 256] ∧
    (addResources freshClientGrant 193).2 = [] ∧
    (addResources freshClientGrant 193).1.id_count = 63 ∧
    (addResources freshClientGrant 194).2 = [SrvEvent.range 512] := by
  refine ⟨by decide, by decide, by decide, by decide⟩

/-- A server-side object as far as request routing needs it: its
interface's method count. -/
structure ServerObject where
  method_count : Nat
deriving DecidableEq

/-- Server-side per-client state for wl_client_connection_data: the
display object table (wl_hash_table, id to object), the client
connection in-ring as 32-bit words, a transport-error flag standing
for a negative wl_connection_data result, and whether
wl_client_destroy has run. -/
structure ServerState where
  objects : Nat → Option ServerObject
  conn : List Nat
  ioError : Bool
  destroyed : Bool

/-- Demarshal failure kinds distinguished by wl_client_connection_data:
errno EINVAL (protocol violation) or ENOMEM (allocation failure). -/
inductive DemErr where
  | einval
  | enomem
deriving DecidableEq

/-- The frame loop of wl_client_connection_data
(wayland-server.c:135-183): while at least a header (8 bytes) remains,
peek the header; stop on an incomplete frame; an unknown object id
posts invalid_object and drains the frame; an opcode at or beyond the
interface's method count posts invalid_method and drains; otherwise
the frame is demarshalled (modelled from the spec: decode consumes the
body; `dem` is the decode outcome for the frame's words, none meaning
success), posting invalid_method on EINVAL, no_memory on ENOMEM, and
invoking the method implementation on success.  `fuel` bounds the
iteration count for totality. -/
def wl_client_connection_data_loop (dem : List Nat → Option DemErr) :
    Nat → ServerState → Int → List SrvEvent × ServerState
  | 0, st, _ => ([], st)
  | Nat.succ fuel, st, len =>
    if 8 ≤ len then
      match st.conn with
      | w0 :: w1 :: _ =>
        let opcode := w1 % 65536
        let size := w1 / 65536
        if len < (size : Int) then ([], st)
        else
          match st.objects w0 with
          | none =>
            let r := wl_client_connection_data_loop dem fuel
              { st with conn := st.conn.drop (size / 4) }
              (len - (size : Int))
            (SrvEvent.invalidObject w0 :: r.1, r.2)
          | some obj =>
            if obj.method_count ≤ opcode then
              let r := wl_client_connection_data_loop dem fuel
                { st with conn := st.conn.drop (size / 4) }
                (len - (size : Int))
              (SrvEvent.invalidMethod w0 opcode :: r.1, r.2)
            else
              match dem (st.conn.take (size / 4)) with
              | some DemErr.einval =>
                let r := wl_client_connection_data_loop dem fuel
                  { st with conn := st.conn.drop (size / 4) }
                  (len - (size : Int))
                (SrvEvent.invalidMethod w0 opcode :: r.1, r.2)
              | some DemErr.enomem =>
                let r := wl_client_connection_data_loop dem fuel
                  { st with conn := st.conn.drop (size / 4) }
                  (len - (size : Int))
                (SrvEvent.noMemory :: r.1, r.2)
              | none =>
                let r := wl_client_connection_data_loop dem fuel
                  { st with conn := st.conn.drop (size / 4) }
                  (len - (size : Int))
                (SrvEvent.handlerRun w0 opcode :: r.1, r.2)
      | _ => ([], st)
    else ([], st)

/-- wl_client_connection_data (wayland-server.c:112-184): a negative
wl_connection_data result destroys the client; otherwise the frame
loop processes the buffered bytes. -/
def wl_client_connection_data (dem : List Nat → Option DemErr)
    (st : ServerState) : List SrvEvent × ServerState :=
  if st.ioError then ([], { st with destroyed := true })
  else
    wl_client_connection_data_loop dem (st.conn.length + 1) st
      (4 * st.conn.length)

/-- The frame loop never destroys the client: only the negative
wl_connection_data path in the wrapper does. -/
theorem loop_preserves_destroyed (dem : List Nat → Option DemErr)
    (fuel : Nat) (st : ServerState) (len : Int) :
    (wl_client_connection_data_loop dem fuel st len).2.destroyed =
      st.destroyed := by
  induction fuel generalizing st len with
  | zero => rfl
  | succ n ih =>
    rw [wl_client_connection_data_loop]
    repeat' split
    all_goals try rfl
    all_goals dsimp only
    all_goals (repeat' split)
    all_goals simp [ih]

/-- C7: one step of the server frame loop.  A frame whose object id is
unknown posts exactly one invalid_object event, is consumed (its
size/4 words dropped), runs no handler, and processing continues with
the next frame on the remaining buffer; a frame for a known object
whose opcode is at least the interface's method count posts exactly
one invalid_method(id, opcode) event and is likewise drained; and the
frame loop never destroys the client, so the connection remains
open. -/
theorem c7_invalid_object_invalid_method (dem : List Nat → Option DemErr)
    (fuel : Nat) (objects : Nat → Option ServerObject) (ioErr d : Bool)
    (w0 w1 : Nat) (tail : List Nat) (len : Int)
    (h8 : 8 ≤ len) (hsz : ((w1 / 65536 : Nat) : Int) ≤ len) :
    (objects w0 = none →
      wl_client_connection_data_loop dem (fuel + 1)
          ⟨objects, w0 :: w1 :: tail, ioErr, d⟩ len =
        (SrvEvent.invalidObject w0 ::
          (wl_client_connection_data_loop dem fuel
            ⟨objects, (w0 :: w1 :: tail).drop (w1 / 65536 / 4), ioErr, d⟩
            (len - ((w1 / 65536 : Nat) : Int))).1,
         (wl_client_connection_data_loop dem fuel
            ⟨objects, (w0 :: w1 :: tail).drop (w1 / 65536 / 4), ioErr, d⟩
            (len - ((w1 / 65536 : Nat) : Int))).2)) ∧
    (∀ obj, objects w0 = some obj → obj.method_count ≤ w1 % 65536 →
      wl_client_connection_data_loop dem (fuel + 1)
          ⟨objects, w0 :: w1 :: tail, ioErr, d⟩ len =
        (SrvEvent.invalidMethod w0 (w1 % 65536) ::
          (wl_client_connection_data_loop dem fuel
            ⟨objects, (w0 :: w1 :: tail).drop (w1 / 65536 / 4), ioErr, d⟩
            (len - ((w1 / 65536 : Nat) : Int))).1,
         (wl_client_connection_data_loop dem fuel
            ⟨objects, (w0 :: w1 :: tail).drop (w1 / 65536 / 4), ioErr, d⟩
            (len - ((w1 / 65536 : Nat) : Int))).2)) ∧
    (∀ f s l, (wl_client_connection_data_loop dem f s l).2.destroyed =
      s.destroyed) := by
  refine ⟨fun h => ?_, fun obj hobj hop => ?_, loop_preserves_destroyed dem⟩
  · rw [wl_client_connection_data_loop]
    dsimp only
    simp [h, h8, Int.not_lt.mpr hsz]
    exact_mod_cast hsz
  · rw [wl_client_connection_data_loop]
    dsimp only
    simp [hobj, h8, Int.not_lt.mpr hsz, hop]
    exact_mod_cast hsz

/-- A decode oracle that always succeeds. -/
def c7dem : List Nat → Option DemErr := fun _ => none

/-- A server object table holding one object, id 1 with 2 methods. -/
def c7objects : Nat → Option ServerObject :=
  fun j => if j = 1 then some ⟨2⟩ else none

/-- C7 witness: with the table holding only id 1 (2 methods), a frame
for unknown id 99 (header words 99, 8<<16) yields exactly one
invalid_object event, and a frame for id 1 with opcode 5 (header words
1, 8<<16 + 5) yields exactly one invalid_method(1, 5) event, each
consumed with processing continuing on the emptied buffer. -/
theorem c7_witness :
    wl_client_connection_data_loop c7dem 2
        ⟨c7objects, [99, 524288], false, false⟩ 8 =
      (SrvEvent.invalidObject 99 ::
        (wl_client_connection_data_loop c7dem 1
          ⟨c7objects, [], false, false⟩ 0).1,
       (wl_client_connection_data_loop c7dem 1
          ⟨c7objects, [], false, false⟩ 0).2) ∧
    wl_client_connection_data_loop c7dem 2
        ⟨c7objects, [1, 524293], false, false⟩ 8 =
      (SrvEvent.invalidMethod 1 5 ::
        (wl_client_connection_data_loop c7dem 1
          ⟨c7objects, [], false, false⟩ 0).1,
       (wl_client_connection_data_loop c7dem 1
          ⟨c7objects, [], false, false⟩ 0).2) := by
  constructor
  · exact (c7_invalid_object_invalid_method c7dem 1 c7objects false false
      99 524288 [] 8 (by decide) (by decide)).1 (by decide)
  · exact (c7_invalid_object_invalid_method c7dem 1 c7objects false false
      1 524293 [] 8 (by decide) (by decide)).2.1 ⟨2⟩ (by decide) (by decide)

/-- A frame listener (wayland-server.c struct wl_frame_listener): the
registering client, the key, and a tag modelling the identity of the
malloc'ed node (its resource.object.id is 0 and its resource.destroy
is destroy_frame_listener). -/
structure FrameListener where
  tag : Nat
  client : Nat
  key : Nat
deriving DecidableEq

/-- Display state for the frame-callback claims: the next fresh node
tag, the display's frame_list, and each client's resource list,
holding the tags of its frame-listener resources. -/
structure FrameState where
  nextTag : Nat
  frame_list : List FrameListener
  resources : Nat → List Nat

/-- display_frame (wayland-server.c:474-494): allocate a listener and
insert it at the tail of the registering client's resource list
(wl_list_insert at resource_list.prev) and at the tail of the
display's frame list (wl_list_insert at frame_list.prev). -/
def display_frame (st : FrameState) (client key : Nat) : FrameState :=
  { nextTag := st.nextTag + 1,
    frame_list := st.frame_list ++ [⟨st.nextTag, client, key⟩],
    resources := fun c =>
      if c = client then st.resources c ++ [st.nextTag]
      else st.resources c }

/-- The wl_list_for_each_safe walk of wl_display_post_frame
(wayland-server.c:603-617): for each listener of the todo list, post
key(key, time) to its client's display and destroy the listener —
wl_resource_destroy removes its tag from the client's resource list
(its object id is 0, so the object table is untouched) and its
destroy handler destroy_frame_listener removes its node, identified
by its tag, from the frame list.  Result: the remaining frame list,
the resource lists and the posted events in walk order. -/
def post_frame_walk (time : Nat) :
    List FrameListener → List FrameListener → (Nat → List Nat) →
    List FrameListener × (Nat → List Nat) × List SrvEvent
  | [], fl, res => (fl, res, [])
  | l :: todo, fl, res =>
    let res1 := fun c => if c = l.client then (res c).erase l.tag else res c
    let fl1 := fl.filter (fun x => x.tag != l.tag)
    let r := post_frame_walk time todo fl1 res1
    (r.1, r.2.1, SrvEvent.key l.client l.key time :: r.2.2)

/-- wl_display_post_frame (wayland-server.c:603-617): walk the frame
list, posting one key event per listener and destroying each. -/
def wl_display_post_frame (st : FrameState) (time : Nat) :
    FrameState × List SrvEvent :=
  let r := post_frame_walk time st.frame_list st.frame_list st.resources
  ({ st with frame_list := r.1, resources := r.2.1 }, r.2.2)

/-- A sequence of display_frame requests (client, key) applied in
order. -/
def register_frames : FrameState → List (Nat × Nat) → FrameState
  | st, [] => st
  | st, (c, k) :: r => register_frames (display_frame st c k) r

/-- The listeners a registration sequence creates, with tags counting
up from the first fresh tag. -/
def mkLs : Nat → List (Nat × Nat) → List FrameListener
  | _, [] => []
  | t0, (c, k) :: r => ⟨t0, c, k⟩ :: mkLs (t0 + 1) r

/-- The tags of the listeners registered by client c, in order. -/
def tagsFor (c : Nat) (L : List FrameListener) : List Nat :=
  (L.filter (fun l => decide (c = l.client))).map FrameListener.tag

theorem tagsFor_cons_self (c t k : Nat) (L : List FrameListener) :
    tagsFor c (⟨t, c, k⟩ :: L) = t :: tagsFor c L := by
  simp [tagsFor]

theorem tagsFor_cons_other (c t c0 k : Nat) (L : List FrameListener)
    (h : c ≠ c0) : tagsFor c (⟨t, c0, k⟩ :: L) = tagsFor c L := by
  simp [tagsFor, h]

/-- Characterisation of a registration sequence: the counter advances
by the number of registrations, the frame list gains the created
listeners in order, and each client's resource list gains its
listeners' tags in order. -/
theorem register_frames_spec (regs : List (Nat × Nat)) (st0 : FrameState) :
    (register_frames st0 regs).nextTag = st0.nextTag + regs.length ∧
    (register_frames st0 regs).frame_list =
      st0.frame_list ++ mkLs st0.nextTag regs ∧
    ∀ c, (register_frames st0 regs).resources c =
      st0.resources c ++ tagsFor c (mkLs st0.nextTag regs) := by
  induction regs generalizing st0 with
  | nil => simp [register_frames, mkLs, tagsFor]
  | cons ck r ih =>
    obtain ⟨c0, k0⟩ := ck
    obtain ⟨h1, h2, h3⟩ := ih (display_frame st0 c0 k0)
    refine ⟨?_, ?_, fun c => ?_⟩
    · rw [register_frames, h1]
      simp [display_frame]
      omega
    · rw [register_frames, h2]
      simp [display_frame, mkLs]
    · rw [register_frames, h3 c]
      by_cases hc : c = c0
      · subst hc
        rw [mkLs, tagsFor_cons_self]
        simp [display_frame]
      · rw [mkLs, tagsFor_cons_other c st0.nextTag c0 k0 _ hc]
        simp [display_frame, hc]

/-- The walk posts one key event per listener, in walk order. -/
theorem post_frame_walk_events (time : Nat) (todo fl : List FrameListener)
    (res : Nat → List Nat) :
    (post_frame_walk time todo fl res).2.2 =
      todo.map (fun l => SrvEvent.key l.client l.key time) := by
  induction todo generalizing fl res with
  | nil => rfl
  | cons l todo ih => simp [post_frame_walk, ih]

/-- When every frame-list node's tag is visited by the walk, the frame
list ends up empty: each node is destroyed. -/
theorem post_frame_walk_flist (time : Nat) (todo : List FrameListener) :
    ∀ (fl : List FrameListener) (res : Nat → List Nat),
    (∀ x ∈ fl, x.tag ∈ todo.map FrameListener.tag) →
    (post_frame_walk time todo fl res).1 = [] := by
  induction todo with
  | nil =>
    intro fl res h
    cases fl with
    | nil => rfl
    | cons a _ => exact absurd (h a (by simp)) (by simp)
  | cons l todo ih =>
    intro fl res h
    rw [post_frame_walk]
    dsimp only
    apply ih
    intro x hx
    have hmem := List.mem_filter.mp hx
    have hne : x.tag ≠ l.tag := by simpa using hmem.2
    have hin := h x hmem.1
    simp only [List.map_cons, List.mem_cons] at hin
    rcases hin with h1 | h1
    · exact absurd h1 hne
    · exact h1

/-- The walk's effect on one client's resource list is the left fold
of the per-listener erases. -/
theorem post_frame_walk_res (time : Nat) (todo : List FrameListener) :
    ∀ (fl : List FrameListener) (res : Nat → List Nat) (c : Nat),
    (post_frame_walk time todo fl res).2.1 c =
      todo.foldl
        (fun acc l => if c = l.client then acc.erase l.tag else acc)
        (res c) := by
  induction todo with
  | nil => intro fl res c; rfl
  | cons l todo ih =>
    intro fl res c
    rw [post_frame_walk]
    dsimp only
    rw [ih, List.foldl_cons]

/-- Folding the erases of a registration's listeners over a resource
list that holds exactly the pre-existing entries (all below the first
fresh tag) followed by that registration's tags restores the
pre-existing entries. -/
theorem foldl_erase_tagsFor (regs : List (Nat × Nat)) :
    ∀ (t0 : Nat) (base : List Nat) (c : Nat),
    (∀ x ∈ base, x < t0) →
    (mkLs t0 regs).foldl
        (fun acc l => if c = l.client then acc.erase l.tag else acc)
        (base ++ tagsFor c (mkLs t0 regs)) = base := by
  induction regs with
  | nil => intro t0 base c _; simp [mkLs, tagsFor]
  | cons ck r ih =>
    obtain ⟨c0, k0⟩ := ck
    intro t0 base c hb
    have hnot : t0 ∉ base := fun hmem => absurd (hb t0 hmem) (lt_irrefl t0)
    have hb' : ∀ x ∈ base, x < t0 + 1 := fun x hx => Nat.lt_succ_of_lt (hb x hx)
    rw [mkLs]
    by_cases hc : c = c0
    · subst hc
      rw [tagsFor_cons_self, List.foldl_cons]
      dsimp only
      rw [if_pos rfl, List.erase_append_right _ hnot, List.erase_cons_head]
      exact ih (t0 + 1) base c hb'
    · rw [tagsFor_cons_other c t0 c0 k0 _ hc, List.foldl_cons]
      dsimp only
      rw [if_neg hc]
      exact ih (t0 + 1) base c hb'

/-- The events of the walk over a registration's listeners are the
key events of the registrations, in registration order. -/
theorem mkLs_map_key (regs : List (Nat × Nat)) :
    ∀ (t0 time : Nat),
    (mkLs t0 regs).map (fun l => SrvEvent.key l.client l.key time) =
      regs.map (fun ck => SrvEvent.key ck.1 ck.2 time) := by
  induction regs with
  | nil => intro t0 time; rfl
  | cons ck r ih =>
    obtain ⟨c, k⟩ := ck
    intro t0 time
    simp [mkLs, ih]

/-- C9: starting from a display with an empty frame list (and resource
lists predating the fresh tags), after any sequence of frame(key)
requests, wl_display_post_frame(time) posts key(key, time) to each
registering client's display in registration order; every listener is
destroyed exactly once — the frame list ends up empty and each
listener's tag is removed from its client's resource list, restoring
the original lists; and a second post_frame posts nothing, so no
listener ever fires twice. -/
theorem c9_post_frame_fires_once_in_order (st0 : FrameState)
    (regs : List (Nat × Nat)) (time t2 : Nat)
    (hfl : st0.frame_list = [])
    (hfresh : ∀ c x, x ∈ st0.resources c → x < st0.nextTag) :
    (wl_display_post_frame (register_frames st0 regs) time).2 =
      regs.map (fun ck => SrvEvent.key ck.1 ck.2 time) ∧
    (wl_display_post_frame (register_frames st0 regs) time).1.frame_list
      = [] ∧
    (∀ c, (wl_display_post_frame (register_frames st0 regs) time).1.resources c
      = st0.resources c) ∧
    (wl_display_post_frame
      ((wl_display_post_frame (register_frames st0 regs) time).1) t2).2
      = [] := by
  obtain ⟨hn, hf, hr⟩ := register_frames_spec regs st0
  rw [hfl, List.nil_append] at hf
  have hfl2 :
      (wl_display_post_frame (register_frames st0 regs) time).1.frame_list
        = [] := by
    show (post_frame_walk time (register_frames st0 regs).frame_list
      (register_frames st0 regs).frame_list
      (register_frames st0 regs).resources).1 = []
    apply post_frame_walk_flist
    intro x hx
    exact List.mem_map_of_mem FrameListener.tag hx
  refine ⟨?_, hfl2, fun c => ?_, ?_⟩
  · show (post_frame_walk time (register_frames st0 regs).frame_list
      (register_frames st0 regs).frame_list
      (register_frames st0 regs).resources).2.2 = _
    rw [post_frame_walk_events, hf, mkLs_map_key]
  · show (post_frame_walk time (register_frames st0 regs).frame_list
      (register_frames st0 regs).frame_list
      (register_frames st0 regs).resources).2.1 c = _
    rw [post_frame_walk_res, hf, hr c]
    exact foldl_erase_tagsFor regs st0.nextTag (st0.resources c) c
      (fun x hx => hfresh c x hx)
  · show (post_frame_walk t2
      (wl_display_post_frame (register_frames st0 regs) time).1.frame_list
      (wl_display_post_frame (register_frames st0 regs) time).1.frame_list
      (wl_display_post_frame (register_frames st0 regs) time).1.resources).2.2
        = []
    rw [hfl2]
    rfl

/-- A fresh display for the frame-callback witness: empty frame list,
empty resource lists. -/
def emptyFrameState : FrameState :=
  { nextTag := 0, frame_list := [], resources := fun _ => [] }

/-- C9 witness: clients 1 and 2 register frame(10) and frame(20); one
post_frame(5) posts key(10, 5) to client 1 then key(20, 5) to client
2, empties the frame list, restores both resource lists, and a second
post_frame(6) posts nothing. -/
theorem c9_witness :
    (wl_display_post_frame
      (register_frames emptyFrameState [(1, 10), (2, 20)]) 5).2 =
      [SrvEvent.key 1 10 5, SrvEvent.key 2 20 5] ∧
    (wl_display_post_frame
      (register_frames emptyFrameState [(1, 10), (2, 20)]) 5).1.frame_list
      = [] ∧
    (∀ c, (wl_display_post_frame
      (register_frames emptyFrameState [(1, 10), (2, 20)]) 5).1.resources c
      = emptyFrameState.resources c) ∧
    (wl_display_post_frame
      ((wl_display_post_frame
        (register_frames emptyFrameState [(1, 10), (2, 20)]) 5).1) 6).2
      = [] :=
  c9_post_frame_fires_once_in_order emptyFrameState [(1, 10), (2, 20)] 5 6
    rfl (fun _c x hx => absurd hx (List.not_mem_nil x))
